import Mathlib

/-!
Verification development for the forex data extractor repository.

The Python sources are shallowly embedded: calendar dates become the `Date`
structure below (Python `datetime` objects carry only date precision here,
matching the repository's use), decimal prices become `ℚ`, fallible code
returns `Option`/`Except`, and the file system and network are passed in
explicitly (prior file contents, scraped rows, an injected per-path failure
predicate).  Each definition is translated from the corresponding function in
`src/` (see the doc comments).
-/

/-- Calendar date with date-only precision, as used by the repository's
`datetime` values (all constructed via `datetime.strptime` / `datetime(y,m,d)`
with zero time-of-day). -/
structure Date where
  year : Nat
  month : Nat
  day : Nat
deriving DecidableEq, Repr

/-- Chronological order on dates: Python `datetime` comparison, which is
lexicographic on (year, month, day). -/
def Date.le (a b : Date) : Prop :=
  a.year < b.year ∨ (a.year = b.year ∧ (a.month < b.month ∨ (a.month = b.month ∧ a.day ≤ b.day)))

/-- Strict chronological order on dates (Python `datetime` `<`). -/
def Date.lt (a b : Date) : Prop :=
  a.year < b.year ∨ (a.year = b.year ∧ (a.month < b.month ∨ (a.month = b.month ∧ a.day < b.day)))

instance Date.decLe (a b : Date) : Decidable (Date.le a b) :=
  decidable_of_iff
    (a.year < b.year ∨ (a.year = b.year ∧ (a.month < b.month ∨ (a.month = b.month ∧ a.day ≤ b.day))))
    Iff.rfl

instance Date.decLt (a b : Date) : Decidable (Date.lt a b) :=
  decidable_of_iff
    (a.year < b.year ∨ (a.year = b.year ∧ (a.month < b.month ∨ (a.month = b.month ∧ a.day < b.day))))
    Iff.rfl

theorem Date.le_refl (a : Date) : Date.le a a := by
  unfold Date.le; omega

theorem Date.le_trans {a b c : Date} (h1 : Date.le a b) (h2 : Date.le b c) : Date.le a c := by
  unfold Date.le at h1 h2 ⊢; omega

theorem Date.le_total (a b : Date) : Date.le a b ∨ Date.le b a := by
  unfold Date.le; omega

theorem Date.le_of_lt {a b : Date} (h : Date.lt a b) : Date.le a b := by
  unfold Date.lt at h; unfold Date.le; omega

theorem Date.le_of_not_lt {a b : Date} (h : ¬ Date.lt a b) : Date.le b a := by
  unfold Date.lt at h; unfold Date.le; omega

theorem Date.lt_of_not_le {a b : Date} (h : ¬ Date.le a b) : Date.lt b a := by
  unfold Date.le at h; unfold Date.lt; omega

/-- Gregorian leap-year rule, as used by Python's `datetime` module when the
parsed components are assembled into a date. -/
def isLeapYear (y : Nat) : Bool :=
  (y % 4 = 0 && y % 100 ≠ 0) || (y % 400 = 0)

/-- Number of days in a month, as enforced by `datetime(year, month, day)`. -/
def daysInMonth (y m : Nat) : Nat :=
  if m = 2 then (if isLeapYear y then 29 else 28)
  else if m = 4 ∨ m = 6 ∨ m = 9 ∨ m = 11 then 30
  else 31

/-- Building a `datetime` from parsed components: `datetime(y, m, d)` raises
`ValueError` (here: `none`) outside the valid calendar range. -/
def mkValidDate (y m d : Nat) : Option Date :=
  if 1 ≤ y ∧ y ≤ 9999 ∧ 1 ≤ m ∧ m ≤ 12 ∧ 1 ≤ d ∧ d ≤ daysInMonth y m then
    some ⟨y, m, d⟩
  else none

/-- Python `str.strip()`: drop leading and trailing whitespace. -/
def pyStrip (cs : List Char) : List Char :=
  ((cs.dropWhile Char.isWhitespace).reverse.dropWhile Char.isWhitespace).reverse

/-- Python `str.strip()` on `String` values. -/
def strStrip (s : String) : String := String.mk (pyStrip s.toList)

/-- Numeric value of a decimal digit character. -/
def digitVal (c : Char) : Nat := c.toNat - '0'.toNat

/-- Value of a digit string, most significant digit first. -/
def digitsToNat (ds : List Char) : Nat := ds.foldl (fun a c => a * 10 + digitVal c) 0

/-- Two-digit numeric field of `strptime` (for `%d`: alternatives `3[01]`,
`[12]\d`, `0[1-9]`, i.e. any two digits whose value lies in the range;
for `%m`: `1[0-2]`, `0[1-9]`). -/
def parse2Digit (lo hi : Nat) (s : List Char) : Option (Nat × List Char) :=
  match s with
  | c1 :: c2 :: rest =>
    if c1.isDigit && c2.isDigit then
      let v := digitVal c1 * 10 + digitVal c2
      if lo ≤ v ∧ v ≤ hi then some (v, rest) else none
    else none
  | _ => none

/-- One-or-two digit numeric field of `strptime` (`%d`, `%m`): the two-digit
alternatives are tried first, then the single nonzero digit `[1-9]`, matching
the alternation order of Python's `_strptime` regular expressions. -/
def parse1or2Digit (lo hi : Nat) (s : List Char) : Option (Nat × List Char) :=
  match parse2Digit lo hi s with
  | some r => some r
  | none =>
    match s with
    | c :: rest =>
      if c.isDigit ∧ 1 ≤ digitVal c ∧ digitVal c ≤ 9 then some (digitVal c, rest) else none
    | [] => none

/-- Four-digit year field of `strptime` (`%Y` is the regex `\d\d\d\d`). -/
def parseYear4 (s : List Char) : Option (Nat × List Char) :=
  match s with
  | a :: b :: c :: d :: rest =>
    if a.isDigit && b.isDigit && c.isDigit && d.isDigit then
      some (digitVal a * 1000 + digitVal b * 100 + digitVal c * 10 + digitVal d, rest)
    else none
  | _ => none

/-- Literal character of a `strptime` format string. -/
def expectChar (c : Char) (s : List Char) : Option (List Char) :=
  match s with
  | x :: rest => if x = c then some rest else none
  | [] => none

/-- Whitespace in a `strptime` format matches one or more whitespace
characters of the input (`_strptime` rewrites it to the regex `\s+`). -/
def skipWs1 (s : List Char) : Option (List Char) :=
  match s with
  | x :: rest => if x.isWhitespace then some (rest.dropWhile Char.isWhitespace) else none
  | [] => none

/-- Abbreviated month names matched by `%b` (case-insensitively). -/
def monthAbbrevs : List (String × Nat) :=
  [("jan", 1), ("feb", 2), ("mar", 3), ("apr", 4), ("may", 5), ("jun", 6),
   ("jul", 7), ("aug", 8), ("sep", 9), ("oct", 10), ("nov", 11), ("dec", 12)]

/-- Full month names matched by `%B` (case-insensitively). -/
def monthFullNames : List (String × Nat) :=
  [("january", 1), ("february", 2), ("march", 3), ("april", 4), ("may", 5), ("june", 6),
   ("july", 7), ("august", 8), ("september", 9), ("october", 10), ("november", 11), ("december", 12)]

/-- Month-name field of `strptime`: the input (lower-cased, since the regex is
compiled with `IGNORECASE`) is matched against the month-name table; no two
names in either table are prefixes of one another, so first-match is the regex
alternation. -/
def matchMonthName (table : List (String × Nat)) (s : List Char) : Option (Nat × List Char) :=
  match table with
  | [] => none
  | (name, m) :: rest =>
    let n := name.toList
    if (s.take n.length).map Char.toLower = n then some (m, s.drop n.length)
    else matchMonthName rest s

/-- One `strptime` format of `parse_date_string` in `src/utils.py`:
a month-name format such as `"%b %d, %Y"` / `"%B %d, %Y"`.  The whole input
must be consumed (`strptime` raises on unconverted trailing data). -/
def fmtMonthNameDayYear (table : List (String × Nat)) (s : List Char) : Option Date := do
  let (m, s1) ← matchMonthName table s
  let s2 ← skipWs1 s1
  let (d, s3) ← parse1or2Digit 1 31 s2
  let s4 ← expectChar ',' s3
  let s5 ← skipWs1 s4
  let (y, s6) ← parseYear4 s5
  if s6 = [] then mkValidDate y m d else none

/-- The `strptime` format `"%Y-%m-%d"` of `parse_date_string`. -/
def fmtYearMonthDay (s : List Char) : Option Date := do
  let (y, s1) ← parseYear4 s
  let s2 ← expectChar '-' s1
  let (m, s3) ← parse1or2Digit 1 12 s2
  let s4 ← expectChar '-' s3
  let (d, s5) ← parse1or2Digit 1 31 s4
  if s5 = [] then mkValidDate y m d else none

/-- The `strptime` format `"%m/%d/%Y"` of `parse_date_string`. -/
def fmtMonthDayYearSlash (s : List Char) : Option Date := do
  let (m, s1) ← parse1or2Digit 1 12 s
  let s2 ← expectChar '/' s1
  let (d, s3) ← parse1or2Digit 1 31 s2
  let s4 ← expectChar '/' s3
  let (y, s5) ← parseYear4 s4
  if s5 = [] then mkValidDate y m d else none

/-- The `strptime` format `"%d/%m/%Y"` of `parse_date_string`. -/
def fmtDayMonthYearSlash (s : List Char) : Option Date := do
  let (d, s1) ← parse1or2Digit 1 31 s
  let s2 ← expectChar '/' s1
  let (m, s3) ← parse1or2Digit 1 12 s2
  let s4 ← expectChar '/' s3
  let (y, s5) ← parseYear4 s4
  if s5 = [] then mkValidDate y m d else none

/-- The list `date_formats` of `parse_date_string` in `src/utils.py`, in
source order: `"%b %d, %Y"`, `"%B %d, %Y"`, `"%Y-%m-%d"`, `"%m/%d/%Y"`,
`"%d/%m/%Y"`. -/
def dateFormats : List (List Char → Option Date) :=
  [fmtMonthNameDayYear monthAbbrevs, fmtMonthNameDayYear monthFullNames,
   fmtYearMonthDay, fmtMonthDayYearSlash, fmtDayMonthYearSlash]

/-- The format loop of `parse_date_string`: try each format in order,
returning the first successful parse. -/
def tryFormats : List (List Char → Option Date) → List Char → Option Date
  | [], _ => none
  | f :: fs, s =>
    match f s with
    | some d => some d
    | none => tryFormats fs s

/-- `parse_date_string` from `src/utils.py`: strip the input, try the five
formats in order, return the first successful parse, `none` if all fail. -/
def parse_date_string (s : String) : Option Date :=
  tryFormats dateFormats (pyStrip s.toList)

theorem tryFormats_eq_findSome (fs : List (List Char → Option Date)) (s : List Char) :
    tryFormats fs s = fs.findSome? (fun f => f s) := by
  induction fs with
  | nil => rfl
  | cons f fs ih =>
    simp only [tryFormats, List.findSome?]
    cases f s <;> simp [ih]


/-- `validate_date_range` from `src/utils.py`: the optional bounds default to
today and to 2005-01-01; raises `ValueError` (here `Except.error`) when
`start > max_start`, when `end < min_end`, or when `start < end`. -/
def validate_date_range (start_date end_date : Date)
    (max_start_date min_end_date : Option Date) (today : Date) : Except String Unit :=
  let maxS := max_start_date.getD today
  let minE := min_end_date.getD ⟨2005, 1, 1⟩
  if Date.lt maxS start_date then
    Except.error "Start date cannot be later than the maximum start date."
  else if Date.lt end_date minE then
    Except.error "End date cannot be earlier than the minimum end date."
  else if Date.lt start_date end_date then
    Except.error "Start date cannot be earlier than the end date."
  else
    Except.ok ()

/-- Days from the Unix epoch for a calendar date (civil-calendar algorithm);
used by `date_to_unix` in `src/utils.py` (which calls `datetime.timestamp()`,
modelled here at UTC midnight). -/
def daysFromCivil (date : Date) : Int :=
  let y : Int := if date.month ≤ 2 then (date.year : Int) - 1 else (date.year : Int)
  let era : Int := (if 0 ≤ y then y else y - 399) / 400
  let yoe : Int := y - era * 400
  let mp : Int := ((date.month : Int) + 9) % 12
  let doy : Int := (153 * mp + 2) / 5 + (date.day : Int) - 1
  let doe : Int := yoe * 365 + yoe / 4 - yoe / 100 + doy
  era * 146097 + doe - 719468

/-- `date_to_unix` from `src/utils.py`: whole seconds since the epoch. -/
def date_to_unix (date : Date) : Int := daysFromCivil date * 86400

/-- The `OutputFormat` enum from `src/models.py`. -/
inductive OutputFormat where
  | csv
  | json
  | both
deriving DecidableEq, Repr

/-- The `ExtractionRequest` model from `src/models.py` (fields in source
order; `min_end_date` and `max_start_date` carry the defaults that the field
validators effectively use). -/
structure ExtractionRequest where
  currency_pair : String
  start_date : Date
  end_date : Date
  output_file : Option String
  append_to_file : Bool
  output_format : OutputFormat
  min_end_date : Date
  max_start_date : Date
deriving DecidableEq, Repr

/-- Exceptions of the Python sources that matter to the pipeline boundary:
pydantic `ValidationError` (caught by `get_forex_data`) versus any other
exception, e.g. the `ValueError` from `OutputFormat(...)` (not caught). -/
inductive PyError where
  | validationError (msg : String)
  | valueError (msg : String)
deriving DecidableEq, Repr

/-- Python `str.upper()` (ASCII letters suffice for this repository). -/
def strUpper (s : String) : String := String.mk (s.toList.map Char.toUpper)

/-- Python `str.lower()`. -/
def strLower (s : String) : String := String.mk (s.toList.map Char.toLower)

/-- Python `str.isalpha()`: nonempty and all characters alphabetic. -/
def isAlphaString (s : String) : Bool := s ≠ "" && s.toList.all Char.isAlpha

/-- Reserved filename characters checked by the `output_file` validator in
`src/models.py`. -/
def invalidFilenameChars : List Char := ['<', '>', ':', '"', '/', '\\', '|', '?', '*']

/-- The `currency_pair` field validator of `ExtractionRequest`
(`src/models.py`): reject empty input, uppercase and strip, reject anything
not purely alphabetic. -/
def validateCurrencyPair (cp : String) : Except PyError String :=
  if cp = "" then Except.error (PyError.validationError "Currency pair cannot be empty")
  else
    let t := strStrip (strUpper cp)
    if isAlphaString t then Except.ok t
    else Except.error (PyError.validationError "Currency pair must contain only letters")

/-- The `output_file` field validator of `ExtractionRequest`
(`src/models.py`): strip; an empty result becomes `None`; reject reserved
filesystem characters. -/
def validateOutputFile (f : Option String) : Except PyError (Option String) :=
  match f with
  | none => Except.ok none
  | some s =>
    let t := strStrip s
    if t = "" then Except.ok none
    else if t.toList.any (fun c => invalidFilenameChars.contains c) then
      Except.error (PyError.validationError "Output filename contains an invalid character")
    else Except.ok (some t)

/-- `OutputFormat(output_format.lower())` in `create_extraction_request`
(`src/models.py`); an unknown member raises `ValueError`, modelled by
`none`. -/
def parseOutputFormat (s : String) : Option OutputFormat :=
  let l := strLower s
  if l = "csv" then some OutputFormat.csv
  else if l = "json" then some OutputFormat.json
  else if l = "both" then some OutputFormat.both
  else none

/-- Default lower bound for `end_date` (`datetime(2005, 1, 1)`). -/
def minEndDefault : Date := ⟨2005, 1, 1⟩

/-- `create_extraction_request` from `src/models.py` together with the
pydantic validation of `ExtractionRequest`.  The field validators for
`start_date` / `end_date` read `max_start_date` / `min_end_date` from
`values`, but those fields are declared after the date fields, so the
defaults (today, 2005-01-01) are always the effective bounds.  The model
validator then enforces `start_date >= end_date`.  `today` is the ambient
`datetime.today()`. -/
def create_extraction_request (today : Date) (cp : String) (sd ed : Date)
    (ofile : Option String) (app : Bool) (ofmt : String) : Except PyError ExtractionRequest :=
  match parseOutputFormat ofmt with
  | none => Except.error (PyError.valueError "not a valid OutputFormat")
  | some fmt =>
    match validateCurrencyPair cp with
    | Except.error e => Except.error e
    | Except.ok cp2 =>
      if Date.lt today sd then
        Except.error (PyError.validationError "Start date cannot be later than the maximum start date.")
      else if Date.lt ed minEndDefault then
        Except.error (PyError.validationError "End date cannot be earlier than the minimum end date.")
      else
        match validateOutputFile ofile with
        | Except.error e => Except.error e
        | Except.ok ofile2 =>
          if Date.lt sd ed then
            Except.error (PyError.validationError "Start date cannot be earlier than the end date.")
          else
            Except.ok
              { currency_pair := cp2, start_date := sd, end_date := ed,
                output_file := ofile2, append_to_file := app, output_format := fmt,
                min_end_date := minEndDefault, max_start_date := today }

/-- An individual price point (`PriceDataPoint` in `src/models.py`); the
decimal close price is represented as a rational. -/
structure PriceDataPoint where
  date : Date
  close_price : ℚ
  date_string : String
deriving DecidableEq, Repr

/-- Unsigned part of `Decimal(text)` for plain decimal literals: digits, an
optional dot, fractional digits. -/
def parseUnsignedDecimal (s : List Char) : Option ℚ :=
  let ip := s.takeWhile Char.isDigit
  let rest := s.dropWhile Char.isDigit
  match rest with
  | [] => if ip.isEmpty then none else some ((digitsToNat ip : ℚ))
  | '.' :: fp =>
    if fp.all Char.isDigit && !(ip.isEmpty && fp.isEmpty) then
      some ((digitsToNat ip : ℚ) + (digitsToNat fp : ℚ) / ((10 : ℚ) ^ fp.length))
    else none
  | _ => none

/-- `Decimal(text)` for signed plain decimal literals, as reached by the
close-price validator after comma removal and stripping. -/
def parseDecimal (s : List Char) : Option ℚ :=
  match s with
  | '+' :: rest => parseUnsignedDecimal rest
  | '-' :: rest => (parseUnsignedDecimal rest).map (fun q => -q)
  | _ => parseUnsignedDecimal s

/-- Python `str.replace(',', '')` used on price text. -/
def removeCommas (s : String) : String := String.mk (s.toList.filter (fun c => c ≠ ','))

/-- Construction of a `PriceDataPoint` (`src/models.py`): the `close_price`
validator strips thousands separators and whitespace, rejects empty text,
parses a decimal and rejects non-positive values; the `date_string` validator
rejects blank text and strips it.  A `none` result models the pydantic
`ValidationError` that makes the caller drop the row. -/
def mkPriceDataPoint (d : Date) (priceStr dateStr : String) : Option PriceDataPoint :=
  let p := strStrip (removeCommas priceStr)
  if p = "" then none
  else
    match parseDecimal p.toList with
    | none => none
    | some q =>
      if q ≤ 0 then none
      else
        let ds := strStrip dateStr
        if ds = "" then none
        else some { date := d, close_price := q, date_string := ds }

/-- Sort key relation used by `data_points.sort(key=lambda x: x.date)`. -/
def pointLe (a b : PriceDataPoint) : Prop := Date.le a.date b.date

instance pointLe.decRel : DecidableRel pointLe :=
  fun a b => Date.decLe a.date b.date

instance pointLe.isTotal : IsTotal PriceDataPoint pointLe :=
  ⟨fun a b => Date.le_total a.date b.date⟩

instance pointLe.isTrans : IsTrans PriceDataPoint pointLe :=
  ⟨fun _ _ _ h1 h2 => Date.le_trans h1 h2⟩

/-- `ExtractionMetadata` from `src/models.py` (the `request_params` echo is
kept; the extraction timestamp is an opaque ISO string threaded in from the
caller's clock). -/
structure ExtractionMetadata where
  extraction_timestamp : String
  total_points : Nat
  currency_pair : String
  date_range_start : Date
  date_range_end : Date
  request_params : ExtractionRequest
  headers_found : List String
  url_accessed : Option String
deriving DecidableEq, Repr

/-- `ForexExtractionResult` from `src/models.py` (raw record; always built
through `mkForexExtractionResult`, which runs the pydantic validators). -/
structure ForexExtractionResult where
  data_points : List PriceDataPoint
  metadata : ExtractionMetadata
  success : Bool
  error_message : Option String
deriving DecidableEq, Repr

/-- Python `max(dates)` over a nonempty list, given as head and tail: keep the
current value unless a strictly later one appears. -/
def foldMaxDate (d : Date) (ds : List Date) : Date :=
  ds.foldl (fun a b => if Date.lt a b then b else a) d

/-- Python `min(dates)` over a nonempty list, given as head and tail. -/
def foldMinDate (d : Date) (ds : List Date) : Date :=
  ds.foldl (fun a b => if Date.lt b a then b else a) d

theorem maxStep_cases (d b : Date) :
    (if Date.lt d b then b else d) = d ∨ (if Date.lt d b then b else d) = b := by
  by_cases hb : Date.lt d b
  · right; rw [if_pos hb]
  · left; rw [if_neg hb]

theorem le_maxStep_left (d b : Date) : Date.le d (if Date.lt d b then b else d) := by
  by_cases hb : Date.lt d b
  · rw [if_pos hb]; exact Date.le_of_lt hb
  · rw [if_neg hb]; exact Date.le_refl d

theorem le_maxStep_right (d b : Date) : Date.le b (if Date.lt d b then b else d) := by
  by_cases hb : Date.lt d b
  · rw [if_pos hb]; exact Date.le_refl b
  · rw [if_neg hb]; exact Date.le_of_not_lt hb

theorem minStep_cases (d b : Date) :
    (if Date.lt b d then b else d) = d ∨ (if Date.lt b d then b else d) = b := by
  by_cases hb : Date.lt b d
  · right; rw [if_pos hb]
  · left; rw [if_neg hb]

theorem minStep_le_left (d b : Date) : Date.le (if Date.lt b d then b else d) d := by
  by_cases hb : Date.lt b d
  · rw [if_pos hb]; exact Date.le_of_lt hb
  · rw [if_neg hb]; exact Date.le_refl d

theorem minStep_le_right (d b : Date) : Date.le (if Date.lt b d then b else d) b := by
  by_cases hb : Date.lt b d
  · rw [if_pos hb]; exact Date.le_refl b
  · rw [if_neg hb]; exact Date.le_of_not_lt hb

theorem foldMaxDate_mem (d : Date) (ds : List Date) : foldMaxDate d ds ∈ d :: ds := by
  induction ds generalizing d with
  | nil => simp [foldMaxDate]
  | cons b t ih =>
    have hstep : foldMaxDate d (b :: t) = foldMaxDate (if Date.lt d b then b else d) t := rfl
    rw [hstep]
    have h := ih (if Date.lt d b then b else d)
    rw [List.mem_cons] at h
    rcases h with h | h
    · rw [h]
      rcases maxStep_cases d b with hc | hc <;> rw [hc] <;> simp
    · simp [List.mem_cons, h]

theorem le_foldMaxDate (d : Date) (ds : List Date) :
    ∀ x ∈ d :: ds, Date.le x (foldMaxDate d ds) := by
  induction ds generalizing d with
  | nil =>
    intro x hx
    rw [List.mem_singleton] at hx
    subst hx
    exact Date.le_refl x
  | cons b t ih =>
    intro x hx
    have hstep : foldMaxDate d (b :: t) = foldMaxDate (if Date.lt d b then b else d) t := rfl
    rw [hstep]
    have htail := ih (if Date.lt d b then b else d)
    have hhead := htail _ (List.mem_cons_self _ t)
    rw [List.mem_cons] at hx
    rcases hx with rfl | hx
    · exact Date.le_trans (le_maxStep_left x b) hhead
    · rw [List.mem_cons] at hx
      rcases hx with rfl | hx
      · exact Date.le_trans (le_maxStep_right d x) hhead
      · exact htail x (List.mem_cons_of_mem _ hx)

theorem foldMinDate_mem (d : Date) (ds : List Date) : foldMinDate d ds ∈ d :: ds := by
  induction ds generalizing d with
  | nil => simp [foldMinDate]
  | cons b t ih =>
    have hstep : foldMinDate d (b :: t) = foldMinDate (if Date.lt b d then b else d) t := rfl
    rw [hstep]
    have h := ih (if Date.lt b d then b else d)
    rw [List.mem_cons] at h
    rcases h with h | h
    · rw [h]
      rcases minStep_cases d b with hc | hc <;> rw [hc] <;> simp
    · simp [List.mem_cons, h]

theorem foldMinDate_le (d : Date) (ds : List Date) :
    ∀ x ∈ d :: ds, Date.le (foldMinDate d ds) x := by
  induction ds generalizing d with
  | nil =>
    intro x hx
    rw [List.mem_singleton] at hx
    subst hx
    exact Date.le_refl x
  | cons b t ih =>
    intro x hx
    have hstep : foldMinDate d (b :: t) = foldMinDate (if Date.lt b d then b else d) t := rfl
    rw [hstep]
    have htail := ih (if Date.lt b d then b else d)
    have hhead := htail _ (List.mem_cons_self _ t)
    rw [List.mem_cons] at hx
    rcases hx with rfl | hx
    · exact Date.le_trans hhead (minStep_le_left x b)
    · rw [List.mem_cons] at hx
      rcases hx with rfl | hx
      · exact Date.le_trans hhead (minStep_le_right d x)
      · exact htail x (List.mem_cons_of_mem _ hx)

/-- Construction of a `ForexExtractionResult` (`src/models.py`): pydantic runs
the `sort_data_points` field validator (chronological in-place sort) and the
`update_metadata_total` model validator, which recomputes `total_points` and,
when data points exist, overwrites the metadata date range with the actual
max/min observed dates. -/
def mkForexExtractionResult (pts : List PriceDataPoint) (meta : ExtractionMetadata)
    (success : Bool) (err : Option String) : ForexExtractionResult :=
  let sorted := List.insertionSort pointLe pts
  let meta1 := { meta with total_points := sorted.length }
  let meta2 :=
    match sorted.map PriceDataPoint.date with
    | [] => meta1
    | d :: ds => { meta1 with date_range_start := foldMaxDate d ds, date_range_end := foldMinDate d ds }
  { data_points := sorted, metadata := meta2, success := success, error_message := err }

/-- `_convert_to_data_points` from `src/scraper.py`: for each raw
(date text, price text) pair, parse the date, build a validated
`PriceDataPoint`, silently drop rows that fail, then sort chronologically.
(The `request` parameter of the Python method is unused by its body.) -/
def convert_to_data_points (raw : List (String × String)) : List PriceDataPoint :=
  let pts := raw.filterMap (fun pr =>
    match parse_date_string pr.1 with
    | some d => mkPriceDataPoint d pr.2 pr.1
    | none => none)
  List.insertionSort pointLe pts

/-- The body of the row loop of `_scrape_yahoo_finance` (`src/scraper.py`,
lines 155-174): the two cell texts may be missing (`None`) or empty, in which
case the row is skipped; otherwise both are stripped, the date is parsed
(unparsable rows are skipped), and the row is kept only when the parsed date
lies in the closed interval `[end_date, start_date]`. -/
def keepRow (req : ExtractionRequest) (row : Option String × Option String) :
    Option (String × String) :=
  match row with
  | (some d, some c) =>
    if d = "" || c = "" then none
    else
      match parse_date_string (strStrip d) with
      | none => none
      | some rd =>
        if Date.le rd req.start_date ∧ Date.le req.end_date rd then some (strStrip d, strStrip c)
        else none
  | _ => none

/-- The row-scanning loop of `_scrape_yahoo_finance`: accumulate the kept
rows in page order. -/
def scrape_rows_filter (rows : List (Option String × Option String))
    (req : ExtractionRequest) : List (String × String) :=
  match rows with
  | [] => []
  | row :: rest =>
    match keepRow req row with
    | some p => p :: scrape_rows_filter rest req
    | none => scrape_rows_filter rest req

/-- String rendering of a decimal price (`str(self.close_price)` in the
export paths; the exact digit string is irrelevant to the claims). -/
def priceText (q : ℚ) : String := toString q

/-- `to_csv_rows` from `src/models.py`: one `(date_string, close)` text row
per data point. -/
def to_csv_rows (r : ForexExtractionResult) : List (List String) :=
  r.data_points.map (fun p => [p.date_string, priceText p.close_price])

/-- The CSV header row written by `_export_to_csv` / `_save_to_csv`
(`config.files.CSV_HEADERS = ['Date', 'Close']`). -/
def csvHeader : List String := ["Date", "Close"]

/-- File-content effect of `_export_to_csv` (`src/forex_data_extractor/export.py`,
lines 90-104) and `_save_to_csv` (`src/scraper.py`, lines 271-287):
`file_exists := isfile(path) and append`; the file is opened in mode `'a'`
when appending (creating it empty when absent) and `'w'` (truncating)
otherwise; the header row is written only when `file_exists` is false; the
data rows follow.  `existing` is the prior contents (`none` when the file
does not exist). -/
def export_to_csv_contents (existing : Option (List (List String))) (append : Bool)
    (dataRows : List (List String)) : List (List String) :=
  let fileExists := existing.isSome && append
  let base := if append then existing.getD [] else []
  let withHeader := if fileExists then base else base ++ [csvHeader]
  withHeader ++ dataRows

/-- One row of the `historical_data` array in the JSON export. -/
structure JsonEntry where
  date : String
  close : String
deriving DecidableEq, Repr

/-- The top-level JSON object written by the JSON export (`to_json_structure`
in `src/models.py`); `data_count` is an `Int` because the prior file's value
is arbitrary JSON data. -/
structure JsonDoc where
  currency_pair : String
  extraction_date : String
  data_count : Int
  historical_data : List JsonEntry
deriving DecidableEq, Repr

/-- `to_json_structure` from `src/models.py`: the object written for a fresh
JSON export. -/
def to_json_structure (r : ForexExtractionResult) : JsonDoc :=
  { currency_pair := r.metadata.currency_pair,
    extraction_date := r.metadata.extraction_timestamp,
    data_count := r.data_points.length,
    historical_data := r.data_points.map (fun p => ⟨p.date_string, priceText p.close_price⟩) }

/-- The merge branch of `_export_to_json` (`src/forex_data_extractor/export.py`,
lines 150-159) and `_save_to_json` (`src/scraper.py`, lines 333-344), taken in
append mode when the prior file parses as a dict containing `historical_data`:
overwrite `extraction_date` with the new one, add the full length of the new
`historical_data` to `data_count`, then append each new item whose `date` is
not among the prior entries' dates (the date set is computed once, before the
loop). -/
def mergeJsonDocs (existing newDoc : JsonDoc) : JsonDoc :=
  let existingDates := existing.historical_data.map JsonEntry.date
  let merged := newDoc.historical_data.foldl
    (fun acc it => if existingDates.contains it.date then acc else acc ++ [it])
    existing.historical_data
  { existing with
      extraction_date := newDoc.extraction_date,
      data_count := existing.data_count + newDoc.historical_data.length,
      historical_data := merged }

/-- `FileOperationResult` from `src/models.py`. -/
structure FileOperationResult where
  file_path : String
  format_type : OutputFormat
  rows_written : Nat
  success : Bool
  error_message : Option String
  file_size_bytes : Option Nat
deriving DecidableEq, Repr

/-- Python truthiness of an optional string (`if request.output_file:`). -/
def optStrTruthy (s : Option String) : Bool :=
  match s with
  | none => false
  | some t => t ≠ ""

/-- Suffix test, Python `str.endswith`. -/
def strEndsWith (s suffix2 : String) : Bool := suffix2.toList.isSuffixOf s.toList

/-- One scan step bound by the remaining fuel; replaces every left-to-right
non-overlapping occurrence of `pat`. -/
def replaceAllAux : Nat → List Char → List Char → List Char → List Char
  | 0, s, _, _ => s
  | _ + 1, [], _, _ => []
  | fuel + 1, c :: rest, pat, rep =>
    if pat ≠ [] ∧ pat.isPrefixOf (c :: rest) then
      rep ++ replaceAllAux fuel ((c :: rest).drop pat.length) pat rep
    else
      c :: replaceAllAux fuel rest pat rep

/-- Python `str.replace(old, new)`: replaces every occurrence, not only a
trailing one. -/
def strReplaceAll (s pat rep : String) : String :=
  String.mk (replaceAllAux s.toList.length s.toList pat.toList rep.toList)

/-- `get_default_filename` from `src/models.py`, with an explicit extension
as both save paths call it. -/
def get_default_filename (req : ExtractionRequest) (ext : String) : String :=
  req.currency_pair ++ "_historical_data." ++ ext

/-- Filename chosen by `_save_to_csv` (`src/scraper.py`): the explicit
output file, given a `.csv` suffix when missing, else the default name. -/
def csvFilenameOf (req : ExtractionRequest) : String :=
  match req.output_file with
  | some f =>
    if f ≠ "" then (if strEndsWith f ".csv" then f else f ++ ".csv")
    else get_default_filename req "csv"
  | none => get_default_filename req "csv"

/-- Filename chosen by `_save_to_json` (`src/scraper.py`). -/
def jsonFilenameOf (req : ExtractionRequest) : String :=
  match req.output_file with
  | some f =>
    if f ≠ "" then (if strEndsWith f ".json" then f else f ++ ".json")
    else get_default_filename req "json"
  | none => get_default_filename req "json"

/-- `_save_to_csv` from `src/scraper.py`, with file I/O abstracted by the
injected failure predicate `fail` (true when writing that path raises): the
whole body is wrapped in try/except, so a failure is reported as a
non-success `FileOperationResult`, never an exception. -/
def save_to_csv (fail : String → Bool) (r : ForexExtractionResult)
    (req : ExtractionRequest) : FileOperationResult :=
  let fn := csvFilenameOf req
  if fail fn then
    { file_path := fn, format_type := OutputFormat.csv, rows_written := 0,
      success := false, error_message := some "io error", file_size_bytes := none }
  else
    { file_path := fn, format_type := OutputFormat.csv,
      rows_written := (to_csv_rows r).length, success := true,
      error_message := none, file_size_bytes := none }

/-- `_save_to_json` from `src/scraper.py`, I/O abstracted as in
`save_to_csv`; `rows_written` is `len(result.data_points)` regardless of
deduplication during an append merge. -/
def save_to_json (fail : String → Bool) (r : ForexExtractionResult)
    (req : ExtractionRequest) : FileOperationResult :=
  let fn := jsonFilenameOf req
  if fail fn then
    { file_path := fn, format_type := OutputFormat.json, rows_written := 0,
      success := false, error_message := some "io error", file_size_bytes := none }
  else
    { file_path := fn, format_type := OutputFormat.json,
      rows_written := r.data_points.length, success := true,
      error_message := none, file_size_bytes := none }

/-- The BOTH-format filename derivation of `_save_result` (`src/scraper.py`,
lines 240-245) and `export_result` (`src/forex_data_extractor/export.py`,
lines 59-64): deep-copy the request; when an output file is set, a name
ending in `.csv` has every `.csv` occurrence replaced by `.json`
(Python `str.replace`), a name ending in `.json` is kept, anything else gets
`.json` appended. -/
def deriveJsonRequest (req : ExtractionRequest) : ExtractionRequest :=
  match req.output_file with
  | some f =>
    if f ≠ "" then
      if strEndsWith f ".csv" then { req with output_file := some (strReplaceAll f ".csv" ".json") }
      else if strEndsWith f ".json" then req
      else { req with output_file := some (f ++ ".json") }
    else req
  | none => req

/-- `_save_result` from `src/scraper.py` (lines 226-248): dispatch on the
output format; for BOTH, the CSV save runs first on the original request and
the JSON save then runs on the derived request — each save catches its own
exceptions, so both are always attempted. -/
def save_result (fail : String → Bool) (r : ForexExtractionResult)
    (req : ExtractionRequest) : List FileOperationResult :=
  match req.output_format with
  | OutputFormat.csv => [save_to_csv fail r req]
  | OutputFormat.json => [save_to_json fail r req]
  | OutputFormat.both => [save_to_csv fail r req, save_to_json fail r (deriveJsonRequest req)]

/-- The URL template of `ForexDataExtractor.__init__` (`src/scraper.py`),
instantiated via `to_url_params`: note `period1` carries the end date and
`period2` the start date. -/
def buildUrl (req : ExtractionRequest) : String :=
  "https://finance.yahoo.com/quote/" ++ req.currency_pair ++ "=X/history/?period1=" ++
    toString (date_to_unix req.end_date) ++ "&period2=" ++ toString (date_to_unix req.start_date)

/-- The `ExtractionMetadata(...)` constructor call of `extract_forex_data`. -/
def mkMetadata (now : String) (req : ExtractionRequest) (hdrs : List String)
    (url : Option String) : ExtractionMetadata :=
  { extraction_timestamp := now, total_points := 0, currency_pair := req.currency_pair,
    date_range_start := req.start_date, date_range_end := req.end_date,
    request_params := req, headers_found := hdrs, url_accessed := url }

/-- `ForexDataExtractor.extract_forex_data` from `src/scraper.py`: the whole
body is wrapped in try/except, so a fetch failure (`fetch = .error`) yields a
non-success result with the exception text and no save; on success the raw
rows are range-filtered, normalized, assembled into a result, and saved
exactly when an output file was requested or at least one data point exists.
Returns the result together with the save outcomes. -/
def extract_forex_data (now : String) (req : ExtractionRequest)
    (fetch : Except String (List (Option String × Option String) × List String))
    (fail : String → Bool) : ForexExtractionResult × List FileOperationResult :=
  match fetch with
  | Except.error e =>
    (mkForexExtractionResult [] (mkMetadata now req [] (some (buildUrl req))) false (some e), [])
  | Except.ok (rows, hdrs) =>
    let raw := scrape_rows_filter rows req
    let data_points := convert_to_data_points raw
    let meta := mkMetadata now req hdrs (some (buildUrl req))
    let result := mkForexExtractionResult data_points meta true none
    let saves :=
      if req.output_file.isSome || data_points.length > 0 then save_result fail result req
      else []
    (result, saves)

/-- `get_forex_data` from `src/scraper.py` (lines 379-434): build a validated
request and run the extractor; only pydantic `ValidationError` is caught, and
the handler itself calls `create_extraction_request` again with the same
arguments while building the failure metadata — that second call raises the
same `ValidationError`, which propagates out of the function (modelled by
`Except.error`). -/
def get_forex_data (today : Date) (now : String) (cp : String) (sd ed : Date)
    (ofile : Option String) (app : Bool) (ofmt : String)
    (fetch : Except String (List (Option String × Option String) × List String))
    (fail : String → Bool) : Except PyError ForexExtractionResult :=
  match create_extraction_request today cp sd ed ofile app ofmt with
  | Except.ok req => Except.ok (extract_forex_data now req fetch fail).1
  | Except.error (PyError.valueError m) => Except.error (PyError.valueError m)
  | Except.error (PyError.validationError m) =>
    match create_extraction_request today cp sd ed ofile app ofmt with
    | Except.ok req2 =>
      Except.ok (mkForexExtractionResult [] (mkMetadata now req2 [] none) false
        (some ("Request validation failed: " ++ m)))
    | Except.error e2 => Except.error e2

theorem foldl_skip_append {α : Type} (p : α → Bool) (l acc : List α) :
    l.foldl (fun a it => if p it then a else a ++ [it]) acc
      = acc ++ l.filter (fun it => !(p it)) := by
  induction l generalizing acc with
  | nil => simp
  | cons x t ih =>
    simp only [List.foldl_cons, List.filter_cons]
    cases hx : p x with
    | true => simp [hx, ih]
    | false => simp [hx, ih]

theorem keepRow_some {req : ExtractionRequest} {row : Option String × Option String}
    {p : String × String} (h : keepRow req row = some p) :
    ∃ d, parse_date_string p.1 = some d ∧ Date.le req.end_date d ∧ Date.le d req.start_date := by
  unfold keepRow at h
  split at h
  next dtext ctext =>
    split at h
    · exact absurd h (by simp)
    · split at h
      · exact absurd h (by simp)
      · next rd hparse =>
        split at h
        · next hrange =>
          injection h with h2
          subst h2
          exact ⟨rd, hparse, hrange.2, hrange.1⟩
        · exact absurd h (by simp)
  next => exact absurd h (by simp)

/-- Fixture date for concrete instantiations: "today" for the ambient clock. -/
def todayFx : Date := ⟨2025, 1, 1⟩

/-- C1 (code bug evidence): a request whose construction fails validation
(non-alphabetic currency pair "US12") makes `get_forex_data` itself raise the
pydantic ValidationError instead of returning a non-success result, because
the `except ValidationError` handler re-invokes `create_extraction_request`
with the same invalid arguments while building the failure metadata. -/
theorem c1_validation_error_escapes :
    get_forex_data todayFx "2025-01-01T00:00:00" "US12" ⟨2024, 1, 1⟩ ⟨2023, 1, 1⟩ none true "csv"
        (Except.ok ([], [])) (fun _ => false)
      = Except.error (PyError.validationError "Currency pair must contain only letters") := by
  rfl

/-- C2: every assembled extraction result has its data points sorted
non-decreasing by parsed date (the `sort_data_points` validator), and the
normalization step `_convert_to_data_points` likewise returns a
chronologically sorted list, regardless of scrape order. -/
theorem c2_result_data_points_sorted :
    (∀ pts meta success err,
      List.Sorted pointLe (mkForexExtractionResult pts meta success err).data_points) ∧
    (∀ raw, List.Sorted pointLe (convert_to_data_points raw)) := by
  constructor
  · intro pts meta success err
    exact List.sorted_insertionSort pointLe pts
  · intro raw
    exact List.sorted_insertionSort pointLe _

/-- C3: a row survives the scan loop of `_scrape_yahoo_finance` only if its
date text parses to a date `d` with `end_date <= d <= start_date`
(inclusive). -/
theorem c3_retained_rows_within_range :
    ∀ (rows : List (Option String × Option String)) (req : ExtractionRequest)
      (p : String × String), p ∈ scrape_rows_filter rows req →
      ∃ d, parse_date_string p.1 = some d ∧ Date.le req.end_date d ∧ Date.le d req.start_date := by
  intro rows req
  induction rows with
  | nil => intro p hp; simp [scrape_rows_filter] at hp
  | cons row rest ih =>
    intro p hp
    simp only [scrape_rows_filter] at hp
    cases hk : keepRow req row with
    | none => rw [hk] at hp; exact ih p hp
    | some q =>
      rw [hk] at hp
      rw [List.mem_cons] at hp
      rcases hp with rfl | hp
      · exact keepRow_some hk
      · exact ih p hp

/-- Fixture request used to instantiate universally quantified theorems. -/
def reqFx : ExtractionRequest :=
  { currency_pair := "USDEUR", start_date := ⟨2024, 12, 31⟩, end_date := ⟨2024, 1, 1⟩,
    output_file := none, append_to_file := true, output_format := OutputFormat.csv,
    min_end_date := ⟨2005, 1, 1⟩, max_start_date := todayFx }

/-- C3 witness: the general theorem applied to a concrete scraped page with
one in-range row. -/
theorem c3_retained_rows_within_range_witness :
    ∃ d, parse_date_string "Sep 30, 2024" = some d ∧
      Date.le reqFx.end_date d ∧ Date.le d reqFx.start_date :=
  c3_retained_rows_within_range [(some "Sep 30, 2024", some "1.0745")] reqFx
    ("Sep 30, 2024", "1.0745") (by decide)

/-- C4: in JSON append mode with a compatible prior file, the merge updates
`extraction_date` to the new extraction's timestamp, increments `data_count`
by the full number of newly written rows (`len(result.data_points)`, not the
deduplicated count), and appends exactly the new rows whose date string is
absent from the prior entries' dates; the prior entries survive unchanged as
a prefix, so an existing entry is never replaced by a new one with the same
date. -/
theorem c4_json_append_merge (existing : JsonDoc) (r : ForexExtractionResult) :
    (mergeJsonDocs existing (to_json_structure r)).extraction_date
        = r.metadata.extraction_timestamp ∧
    (mergeJsonDocs existing (to_json_structure r)).data_count
        = existing.data_count + r.data_points.length ∧
    (mergeJsonDocs existing (to_json_structure r)).historical_data
        = existing.historical_data ++
          (to_json_structure r).historical_data.filter
            (fun it => !((existing.historical_data.map JsonEntry.date).contains it.date)) ∧
    (mergeJsonDocs existing (to_json_structure r)).historical_data.take
        existing.historical_data.length = existing.historical_data := by
  refine ⟨rfl, ?_, ?_, ?_⟩
  · simp [mergeJsonDocs, to_json_structure]
  · exact foldl_skip_append _ _ _
  · rw [show (mergeJsonDocs existing (to_json_structure r)).historical_data
        = existing.historical_data ++
          (to_json_structure r).historical_data.filter
            (fun it => !((existing.historical_data.map JsonEntry.date).contains it.date))
      from foldl_skip_append _ _ _]
    exact List.take_left _ _

/-- C5: the CSV export writes the `Date,Close` header exactly when the target
file does not exist or append mode is off; appending to an existing file
only appends the data rows, so the number of header lines never grows. -/
theorem c5_csv_header_exactly_once (old : List (List String))
    (ex : Option (List (List String))) (appendMode : Bool) (r : ForexExtractionResult) :
    export_to_csv_contents (some old) true (to_csv_rows r) = old ++ to_csv_rows r ∧
    export_to_csv_contents none appendMode (to_csv_rows r) = csvHeader :: to_csv_rows r ∧
    export_to_csv_contents ex false (to_csv_rows r) = csvHeader :: to_csv_rows r ∧
    (export_to_csv_contents (some old) true (to_csv_rows r)).count csvHeader
      = old.count csvHeader + (to_csv_rows r).count csvHeader := by
  refine ⟨rfl, ?_, ?_, ?_⟩
  · cases appendMode <;> rfl
  · cases ex <;> rfl
  · rw [show export_to_csv_contents (some old) true (to_csv_rows r) = old ++ to_csv_rows r
      from rfl]
    exact List.count_append _ _ _

/-- C6: `parse_date_string` tries the five formats in source order and
returns the first successful parse; the five sample inputs all denote
September 30, 2024, and an unparsable input yields `none` rather than an
error. -/
theorem c6_parse_date_string_formats :
    parse_date_string "Sep 30, 2024" = some ⟨2024, 9, 30⟩ ∧
    parse_date_string "September 30, 2024" = some ⟨2024, 9, 30⟩ ∧
    parse_date_string "2024-09-30" = some ⟨2024, 9, 30⟩ ∧
    parse_date_string "09/30/2024" = some ⟨2024, 9, 30⟩ ∧
    parse_date_string "30/09/2024" = some ⟨2024, 9, 30⟩ ∧
    parse_date_string "not a date" = none ∧
    ∀ s, parse_date_string s = dateFormats.findSome? (fun f => f (pyStrip s.toList)) := by
  refine ⟨by decide, by decide, by decide, by decide, by decide, by decide, ?_⟩
  intro s
  exact tryFormats_eq_findSome dateFormats (pyStrip s.toList)

/-- C7: result construction keeps the owned metadata consistent —
`total_points` always equals the number of data points, and for a nonempty
result the metadata date range is exactly the maximum and minimum parsed
dates among the data points. -/
theorem c7_metadata_consistency :
    (∀ pts meta success err,
      (mkForexExtractionResult pts meta success err).metadata.total_points
        = (mkForexExtractionResult pts meta success err).data_points.length) ∧
    (∀ p rest meta success err,
      ((mkForexExtractionResult (p :: rest) meta success err).metadata.date_range_start
          ∈ (mkForexExtractionResult (p :: rest) meta success err).data_points.map
              PriceDataPoint.date ∧
        ∀ d ∈ (mkForexExtractionResult (p :: rest) meta success err).data_points.map
              PriceDataPoint.date,
          Date.le d (mkForexExtractionResult (p :: rest) meta success err).metadata.date_range_start) ∧
      ((mkForexExtractionResult (p :: rest) meta success err).metadata.date_range_end
          ∈ (mkForexExtractionResult (p :: rest) meta success err).data_points.map
              PriceDataPoint.date ∧
        ∀ d ∈ (mkForexExtractionResult (p :: rest) meta success err).data_points.map
              PriceDataPoint.date,
          Date.le (mkForexExtractionResult (p :: rest) meta success err).metadata.date_range_end d)) := by
  constructor
  · intro pts meta success err
    cases hs : List.insertionSort pointLe pts with
    | nil => simp [mkForexExtractionResult, hs]
    | cons q qs => simp [mkForexExtractionResult, hs]
  · intro p rest meta success err
    cases hs : List.insertionSort pointLe (p :: rest) with
    | nil =>
      have hperm := List.perm_insertionSort pointLe (p :: rest)
      rw [hs] at hperm
      exact absurd hperm.length_eq (by simp)
    | cons q qs =>
      simp only [mkForexExtractionResult, hs, List.map_cons]
      refine ⟨⟨?_, ?_⟩, ?_, ?_⟩
      · exact foldMaxDate_mem q.date (qs.map PriceDataPoint.date)
      · exact le_foldMaxDate q.date (qs.map PriceDataPoint.date)
      · exact foldMinDate_mem q.date (qs.map PriceDataPoint.date)
      · exact foldMinDate_le q.date (qs.map PriceDataPoint.date)

/-- Fixture data points for the C7 witness. -/
def ptFxA : PriceDataPoint :=
  { date := ⟨2024, 1, 2⟩, close_price := 1, date_string := "Jan 02, 2024" }

/-- Second fixture data point for the C7 witness. -/
def ptFxB : PriceDataPoint :=
  { date := ⟨2024, 1, 1⟩, close_price := 2, date_string := "Jan 01, 2024" }

/-- Fixture metadata for concrete result constructions. -/
def metaFx : ExtractionMetadata := mkMetadata "2025-01-01T00:00:00" reqFx [] none

/-- C7 witness: the bound part of the theorem applied at a concrete
two-point result and a concrete member date. -/
theorem c7_metadata_consistency_witness :
    Date.le ⟨2024, 1, 1⟩
      (mkForexExtractionResult [ptFxA, ptFxB] metaFx true none).metadata.date_range_start :=
  (c7_metadata_consistency.2 ptFxA [ptFxB] metaFx true none).1.2 ⟨2024, 1, 1⟩ (by decide)

/-- C8: `validate_date_range` fails exactly when `start > max_start` (default
today), or `end < min_end` (default 2005-01-01), or `start < end`; otherwise
it returns normally. -/
theorem c8_validate_date_range_iff (s e : Date) (ms me : Option Date) (today : Date) :
    (validate_date_range s e ms me today ≠ Except.ok () ↔
      (Date.lt (ms.getD today) s ∨ Date.lt e (me.getD ⟨2005, 1, 1⟩) ∨ Date.lt s e)) := by
  by_cases h1 : Date.lt (ms.getD today) s
  · simp [validate_date_range, h1]
  · by_cases h2 : Date.lt e (me.getD ⟨2005, 1, 1⟩)
    · simp [validate_date_range, h1, h2]
    · by_cases h3 : Date.lt s e
      · simp [validate_date_range, h1, h2, h3]
      · simp [validate_date_range, h1, h2, h3]

/-- Fixture request with an output filename containing a non-trailing
`.csv`, output format BOTH. -/
def reqFxBoth : ExtractionRequest :=
  { currency_pair := "USDEUR", start_date := ⟨2024, 12, 31⟩, end_date := ⟨2024, 1, 1⟩,
    output_file := some "data.csv.csv", append_to_file := true,
    output_format := OutputFormat.both,
    min_end_date := ⟨2005, 1, 1⟩, max_start_date := todayFx }

/-- Modelled from the claim's wording, not from the source: replace only a
trailing `.csv` with `.json` (for comparison against the code's
replace-every-occurrence behaviour). -/
def specReplaceTrailingCsv (f : String) : String :=
  if strEndsWith f ".csv" then String.mk (f.toList.take (f.toList.length - 4)) ++ ".json"
  else f

/-- C9 counterexample: for the filename "data.csv.csv" the code's derived
JSON filename is "data.json.json" (Python `str.replace` replaces every
occurrence of ".csv"), while replacing only the trailing ".csv" as the claim
states would give "data.csv.json". -/
theorem c9_trailing_csv_counterexample :
    (deriveJsonRequest reqFxBoth).output_file = some "data.json.json" ∧
    specReplaceTrailingCsv "data.csv.csv" = "data.csv.json" ∧
    (deriveJsonRequest reqFxBoth).output_file
      ≠ some (specReplaceTrailingCsv "data.csv.csv") := by
  refine ⟨by decide, by decide, by decide⟩

/-- C9 (amended): for a BOTH-format export with an explicit output filename,
the CSV export runs first on the original request and the JSON export then
runs on the derived request — both are always attempted whatever the I/O
failure pattern — and the derived filename replaces every occurrence of
".csv" with ".json" when the name ends in ".csv" (Python `str.replace`),
keeps a ".json"-suffixed name, and appends ".json" otherwise. -/
theorem c9_both_export_derivation (fail : String → Bool) (r : ForexExtractionResult)
    (req : ExtractionRequest) (f : String) (hfmt : req.output_format = OutputFormat.both)
    (hfile : req.output_file = some f) (hne : f ≠ "") :
    save_result fail r req
      = [save_to_csv fail r req, save_to_json fail r (deriveJsonRequest req)] ∧
    (deriveJsonRequest req).output_file
      = some (if strEndsWith f ".csv" then strReplaceAll f ".csv" ".json"
              else if strEndsWith f ".json" then f
              else f ++ ".json") := by
  constructor
  · unfold save_result
    rw [hfmt]
  · simp only [deriveJsonRequest, hfile]
    rw [if_pos hne]
    by_cases h1 : strEndsWith f ".csv"
    · simp [h1]
    · by_cases h2 : strEndsWith f ".json"
      · simp [h1, h2, hfile]
      · simp [h1, h2]

/-- Failure pattern in which every file write raises. -/
def failAll : String → Bool := fun _ => true

/-- Fixture result for the C9 witness. -/
def resFxBoth : ForexExtractionResult :=
  mkForexExtractionResult [] (mkMetadata "2025-01-01T00:00:00" reqFxBoth [] none) true none

/-- C9 witness: the amended theorem applied at a concrete BOTH request whose
writes all fail — both exports are still attempted and the derived filename
follows the replace-every-occurrence rule. -/
theorem c9_both_export_derivation_witness :
    save_result failAll resFxBoth reqFxBoth
      = [save_to_csv failAll resFxBoth reqFxBoth,
         save_to_json failAll resFxBoth (deriveJsonRequest reqFxBoth)] ∧
    (deriveJsonRequest reqFxBoth).output_file
      = some (if strEndsWith "data.csv.csv" ".csv" then strReplaceAll "data.csv.csv" ".csv" ".json"
              else if strEndsWith "data.csv.csv" ".json" then "data.csv.csv"
              else "data.csv.csv" ++ ".json") :=
  c9_both_export_derivation failAll resFxBoth reqFxBoth "data.csv.csv" rfl rfl (by decide)

/-- C10: on a successful extraction the save step runs if and only if the
request names an output file or at least one data point was extracted; with
zero points and no explicit filename no file operation is attempted. -/
theorem c10_export_condition (fail : String → Bool) (now : String) (req : ExtractionRequest)
    (rows : List (Option String × Option String)) (hdrs : List String) :
    ((extract_forex_data now req (Except.ok (rows, hdrs)) fail).2 ≠ [] ↔
      (req.output_file.isSome = true ∨
        0 < (convert_to_data_points (scrape_rows_filter rows req)).length)) := by
  have hsave : ∀ r2, save_result fail r2 req ≠ [] := by
    intro r2
    unfold save_result
    cases req.output_format <;> simp
  simp only [extract_forex_data]
  split
  · next hcond =>
    simp only [Bool.or_eq_true, decide_eq_true_eq] at hcond
    exact iff_of_true (hsave _) hcond
  · next hcond =>
    simp only [Bool.or_eq_true, decide_eq_true_eq, not_or, Bool.not_eq_true] at hcond
    obtain ⟨ha, hb⟩ := hcond
    refine iff_of_false (by simp) ?_
    rintro (h | h)
    · rw [ha] at h
      cases h
    · exact hb h
